import Mathlib

/- Verification of the FlowchartConnector renderer (src/js/flowchart.js).

   Shallow embedding conventions:
   - Geometry (bounding boxes, anchor points, canvas dimensions, the device
     pixel ratio) is modelled over ℚ, so that concrete instances evaluate by
     `decide`.  Canvas path commands carry ℝ coordinates because the
     arrowhead computation uses atan2/cos/sin.
   - Fallible JS expressions (property access on null/undefined, the
     `match(...)[1]` indexing in resolveColor) are modelled with
     `Except JsError`, a thrown TypeError being `Except.error .typeError`.
   - The ambient document/window is a record of the query functions the
     class consumes: getElementById (only bounding boxes are observed),
     the root element's computed style variables, and devicePixelRatio. -/

/-- A DOMRect as returned by getBoundingClientRect. -/
structure Rect where
  left : ℚ
  top : ℚ
  width : ℚ
  height : ℚ
  deriving DecidableEq

/-- DOMRect.bottom = top + height. -/
def Rect.bottom (r : Rect) : ℚ := r.top + r.height

/-- A point {x, y} in CSS-pixel coordinates. -/
structure Point where
  x : ℚ
  y : ℚ
  deriving DecidableEq

/-- The document/window state consumed by the class: element lookup by id
    (an element is observed only through its bounding box), computed style
    variables of the document root, and window.devicePixelRatio (`none`
    models the property being undefined). -/
structure Dom where
  elems : String → Option Rect
  cssVar : String → String
  dpr : Option ℚ

/-- The value of the JS expression `window.devicePixelRatio || 1`
    (line 64): a falsy value (undefined or 0) falls back to 1. -/
def Dom.pixelScale (d : Dom) : ℚ :=
  match d.dpr with
  | none => 1
  | some v => if v = 0 then 1 else v

/-- The one runtime error the embedded code can raise: a TypeError from a
    property access or index on null/undefined. -/
inductive JsError where
  | typeError
  deriving DecidableEq

/-- The mutable state of the canvas element and its 2d context that the
    class observes or writes: backing-buffer dimensions (canvas.width and
    canvas.height as assigned), CSS display size (canvas.style.width and
    canvas.style.height, in px), the context's accumulated uniform scale
    factor, and line cap/join. -/
structure CanvasState where
  width : ℚ
  height : ℚ
  styleWidth : ℚ
  styleHeight : ℚ
  ctxScale : ℚ
  lineCap : String
  lineJoin : String
  deriving DecidableEq

/-- The upright state of a FlowchartConnector instance.  `canvas = none`
    models the constructor's early return when getElementById(canvasId)
    is null: the object then has `this.canvas = null` and every other
    field undefined (unobservable here, modelled by defaults).
    `flowchart` is the node reference stored at line 16 (none when the
    lookup returned null: the constructor does NOT check it).
    `listenerInstalled` records whether init() ran and registered the
    debounced resize listener. -/
structure Renderer where
  canvas : Option CanvasState
  flowchart : Option Rect
  connectionType : String
  lineColor : String
  lineWidth : ℚ
  arrowSize : ℚ
  listenerInstalled : Bool
  deriving DecidableEq

/-- One entry of a hardcoded connection table (lines 192-216, 223-235). -/
structure Conn where
  fromId : String
  toId : String
  color : String
  deriving DecidableEq

/-- Canvas paint commands the class issues, at the granularity of its two
    drawing idioms: the cleared rectangle (user-space arguments as passed
    to clearRect), a stroked segment, and a filled triangle.  The color,
    line width and vertices each command was issued with are recorded on
    the command itself (the JS code sets strokeStyle/fillStyle/lineWidth
    immediately before each use, so no state leaks between commands). -/
inductive Cmd where
  | clearRect (x y w h : ℝ)
  | strokeLine (color : String) (lw x1 y1 x2 y2 : ℝ)
  | fillTriangle (color : String) (x0 y0 x1 y1 x2 y2 : ℝ)

/- ----------------------------------------------------------------- -/
/- resolveColor (lines 32-39) and its regex /var\((--[^)]+)\)/        -/
/- ----------------------------------------------------------------- -/

/-- Try to match the regex var\((--[^)]+)\) at the head of the character
    list; on success return capture group 1 (the "--name" part). -/
def varCaptureAt (cs : List Char) : Option (List Char) :=
  match cs with
  | 'v' :: 'a' :: 'r' :: '(' :: '-' :: '-' :: rest =>
    match rest.takeWhile (fun c => c ≠ ')'), rest.dropWhile (fun c => c ≠ ')') with
    | inner, ')' :: _ => if inner.isEmpty then none else some ('-' :: '-' :: inner)
    | _, _ => none
  | _ => none

/-- Scan for the first position where the regex matches (the semantics of
    String.prototype.match with a non-global regex). -/
def findVarCapture : List Char → Option (List Char)
  | [] => none
  | c :: rest =>
    match varCaptureAt (c :: rest) with
    | some cap => some cap
    | none => findVarCapture rest

/-- color.match(/var\((--[^)]+)\)/) : group 1 of the first match, if any. -/
def matchVarName (s : String) : Option String :=
  (findVarCapture s.toList).map (fun cs => String.mk cs)

/-- color.startsWith('var(') (line 33), written out structurally on the
    string's characters. -/
def startsWithVar (s : String) : Bool :=
  match s.toList with
  | 'v' :: 'a' :: 'r' :: '(' :: _ => true
  | _ => false

/-- resolveColor (lines 32-39).  When the input starts with "var(" the
    code indexes the match result with [1]; a null match result (no
    substring matches the pattern) makes that index a TypeError. -/
def resolveColor (dom : Dom) (color : String) : Except JsError String :=
  if startsWithVar color then
    match matchVarName color with
    | none => .error .typeError
    | some v => .ok ((dom.cssVar v).trim)
  else .ok color

/- ----------------------------------------------------------------- -/
/- Anchor resolution (lines 81-128)                                   -/
/- ----------------------------------------------------------------- -/

/-- getElementCenter (lines 81-92).  The element lookup and its null
    check happen before this.flowchart is touched, so a missing element
    yields `ok none` even on a renderer whose flowchart binding failed;
    a present element with a null/undefined flowchart raises a TypeError
    at this.flowchart.getBoundingClientRect(). -/
def getElementCenter (dom : Dom) (r : Renderer) (elementId : String) :
    Except JsError (Option Point) :=
  match dom.elems elementId with
  | none => .ok none
  | some el =>
    match r.flowchart with
    | none => .error .typeError
    | some fc =>
      .ok (some ⟨el.left + el.width / 2 - fc.left,
                 el.top + el.height / 2 - fc.top⟩)

/-- getElementBottom (lines 99-110): bottom-center anchor. -/
def getElementBottom (dom : Dom) (r : Renderer) (elementId : String) :
    Except JsError (Option Point) :=
  match dom.elems elementId with
  | none => .ok none
  | some el =>
    match r.flowchart with
    | none => .error .typeError
    | some fc =>
      .ok (some ⟨el.left + el.width / 2 - fc.left,
                 el.bottom - fc.top⟩)

/-- getElementTop (lines 117-128): top-center anchor. -/
def getElementTop (dom : Dom) (r : Renderer) (elementId : String) :
    Except JsError (Option Point) :=
  match dom.elems elementId with
  | none => .ok none
  | some el =>
    match r.flowchart with
    | none => .error .typeError
    | some fc =>
      .ok (some ⟨el.left + el.width / 2 - fc.left,
                 el.top - fc.top⟩)

/- ----------------------------------------------------------------- -/
/- Arrow drawing (lines 138-167)                                      -/
/- ----------------------------------------------------------------- -/

/-- Math.atan2(y, x), modelled as the argument of the complex number
    x + y·i (both functions have range (-π, π] and agree on every
    non-NaN input, including atan2(0, 0) = 0 = arg 0). -/
noncomputable def atan2 (y x : ℝ) : ℝ := Complex.arg ⟨x, y⟩

/-- drawArrow (lines 138-167): resolve the color, stroke the segment
    from→to at the configured line width, then fill the triangular
    arrowhead whose apex is the destination point and whose trailing
    vertices are (toX - arrowSize·cos(angle ∓ π/6),
    toY - arrowSize·sin(angle ∓ π/6)), angle = atan2(dy, dx). -/
noncomputable def drawArrow (dom : Dom) (r : Renderer) (p q : Point)
    (color : String) : Except JsError (List Cmd) :=
  match resolveColor dom color with
  | .error e => .error e
  | .ok c =>
    let angle := atan2 ((q.y : ℝ) - (p.y : ℝ)) ((q.x : ℝ) - (p.x : ℝ))
    .ok [ Cmd.strokeLine c (r.lineWidth : ℝ) (p.x : ℝ) (p.y : ℝ) (q.x : ℝ) (q.y : ℝ),
          Cmd.fillTriangle c (q.x : ℝ) (q.y : ℝ)
            ((q.x : ℝ) - (r.arrowSize : ℝ) * Real.cos (angle - Real.pi / 6))
            ((q.y : ℝ) - (r.arrowSize : ℝ) * Real.sin (angle - Real.pi / 6))
            ((q.x : ℝ) - (r.arrowSize : ℝ) * Real.cos (angle + Real.pi / 6))
            ((q.y : ℝ) - (r.arrowSize : ℝ) * Real.sin (angle + Real.pi / 6)) ]

/-- Stated after the specification's wording, for comparison with
    drawArrow: a trailing arrowhead vertex "offset from the destination
    by arrowSize at angle δ from the reversed line direction", the
    reversed direction being angle + π. -/
noncomputable def specTrailingVertex (q : Point) (s angle δ : ℝ) : ℝ × ℝ :=
  ((q.x : ℝ) + s * Real.cos (angle + Real.pi + δ),
   (q.y : ℝ) + s * Real.sin (angle + Real.pi + δ))

/- ----------------------------------------------------------------- -/
/- Connection drawing (lines 175-241)                                 -/
/- ----------------------------------------------------------------- -/

/-- drawConnection (lines 175-182): both anchors are resolved before any
    drawing; if either is null the call returns with no command issued. -/
noncomputable def drawConnection (dom : Dom) (r : Renderer) (c : Conn) :
    Except JsError (List Cmd) :=
  match getElementBottom dom r c.fromId with
  | .error e => .error e
  | .ok fromPos =>
    match getElementTop dom r c.toId with
    | .error e => .error e
    | .ok toPos =>
      match fromPos, toPos with
      | some p, some q => drawArrow dom r p q c.color
      | _, _ => .ok []

/-- connections.forEach(conn => this.drawConnection(...)) : the commands
    of each connection in list order (an exception aborts the pass). -/
noncomputable def drawConnList (dom : Dom) (r : Renderer) :
    List Conn → Except JsError (List Cmd)
  | [] => .ok []
  | c :: cs =>
    match drawConnection dom r c with
    | .error e => .error e
    | .ok h =>
      match drawConnList dom r cs with
      | .error e => .error e
      | .ok t => .ok (h ++ t)

/-- The 'hachzarah' connection table (lines 192-216). -/
def hachzarahConnections : List Conn :=
  [ ⟨"question1c", "q1c-yes", "var(--category-gradient-start)"⟩,
    ⟨"question1c", "q1c-no", "var(--category-error-start)"⟩,
    ⟨"question2c", "q2c-yes", "var(--category-gradient-start)"⟩,
    ⟨"question2c", "q2c-no", "var(--link-color)"⟩,
    ⟨"question3c", "q3c-yes", "var(--category-gradient-start)"⟩,
    ⟨"question3c", "q3c-no", "var(--category-error-start)"⟩,
    ⟨"question4c", "q4c-yes", "var(--category-gradient-start)"⟩,
    ⟨"question4c", "q4c-no", "var(--category-error-start)"⟩,
    ⟨"question5c", "q5c-yes", "var(--category-gradient-start)"⟩,
    ⟨"question5c", "q5c-no", "var(--category-error-start)"⟩,
    ⟨"question6c", "q6c-yes", "var(--category-gradient-start)"⟩,
    ⟨"question6c", "q6c-maybe", "#ed8936"⟩ ]

/-- The default connection table (lines 223-235). -/
def defaultConnections : List Conn :=
  [ ⟨"question1", "q1-yes", "var(--category-gradient-start)"⟩,
    ⟨"question1", "q1-no", "var(--category-error-start)"⟩,
    ⟨"question2", "q2-yes", "var(--category-gradient-start)"⟩,
    ⟨"question2", "q2-no", "var(--category-error-start)"⟩,
    ⟨"question3", "q3-yes", "var(--category-gradient-start)"⟩,
    ⟨"question3", "q3-no", "var(--category-error-start)"⟩ ]

/-- The branch on this.connectionType (lines 190 and 221): the
    'hachzarah' table when the type is exactly "hachzarah", the default
    table for every other string. -/
def connectionsFor (connectionType : String) : List Conn :=
  if connectionType = "hachzarah" then hachzarahConnections
  else defaultConnections

/-- drawConnections (lines 187-241): this.ctx.clearRect(0, 0,
    this.canvas.width, this.canvas.height) — a TypeError when this.ctx
    is undefined (inert renderer) — then the active table's connections
    in listed order.  The clearRect arguments are the backing-buffer
    dimensions, interpreted by the context in user-space (scaled)
    coordinates. -/
noncomputable def drawConnections (dom : Dom) (r : Renderer) :
    Except JsError (List Cmd) :=
  match r.canvas with
  | none => .error .typeError
  | some cv =>
    (drawConnList dom r (connectionsFor r.connectionType)).map
      (fun cs => Cmd.clearRect 0 0 (cv.width : ℝ) (cv.height : ℝ) :: cs)

/- ----------------------------------------------------------------- -/
/- resizeCanvas (lines 62-74), init (lines 44-57), constructor         -/
/- ----------------------------------------------------------------- -/

/-- resizeCanvas (lines 62-74).  this.flowchart.getBoundingClientRect()
    is evaluated first (TypeError when the flowchart binding is null or
    the renderer is inert).  Assigning canvas.width/height resets the 2d
    context state, including its transform, to defaults (HTML standard
    behavior the subsequent ctx.scale call relies on), so the resulting
    scale factor is 1 * pixelScale, not an accumulation.  The width and
    height are assigned as computed — rect.width * pixelRatio, with no
    rounding in this code. -/
def resizedCanvas (rect : Rect) (ratio : ℚ) : CanvasState :=
  { width := rect.width * ratio,
    height := rect.height * ratio,
    styleWidth := rect.width,
    styleHeight := rect.height,
    ctxScale := 1 * ratio,
    lineCap := "round",
    lineJoin := "round" }

/-- resizeCanvas proper: the guards, then the state written by the body
    above. -/
def resizeCanvas (dom : Dom) (r : Renderer) : Except JsError Renderer :=
  match r.flowchart with
  | none => .error .typeError
  | some rect =>
    match r.canvas with
    | none => .error .typeError
    | some _ =>
      .ok { r with canvas := some (resizedCanvas rect dom.pixelScale) }

/-- init (lines 44-57): resizeCanvas, drawConnections, then register the
    debounced window resize listener (recorded as a flag; the debounce
    timing itself is modelled separately below). -/
noncomputable def Renderer.init (dom : Dom) (r : Renderer) :
    Except JsError Renderer :=
  match resizeCanvas dom r with
  | .error e => .error e
  | .ok r1 =>
    match drawConnections dom r1 with
    | .error e => .error e
    | .ok _ => .ok { r1 with listenerInstalled := true }

/-- The object produced when the constructor returns at line 13: only
    this.canvas ( = null ) was assigned; every other field is undefined,
    modelled by inert defaults that no operation can observe without
    first raising a TypeError. -/
def inertRenderer : Renderer :=
  { canvas := none, flowchart := none, connectionType := "",
    lineColor := "", lineWidth := 0, arrowSize := 0,
    listenerInstalled := false }

/-- The canvas element's state at construction time, before any resize:
    the HTML defaults (300 × 150 buffer, identity transform, butt/miter
    line style).  init() overwrites all of it before it is observed. -/
def initialCanvas : CanvasState :=
  { width := 300, height := 150, styleWidth := 300, styleHeight := 150,
    ctxScale := 1, lineCap := "butt", lineJoin := "miter" }

/-- The constructor (lines 11-25).  getElementById(canvasId) null →
    early return (an inert object, no exception).  Otherwise the fields
    are assigned — this.flowchart WITHOUT a null check — and init() runs,
    whose resizeCanvas raises a TypeError when the flowchart lookup
    failed. -/
noncomputable def construct (dom : Dom)
    (canvasId flowchartId connectionType : String) :
    Except JsError Renderer :=
  match dom.elems canvasId with
  | none => .ok inertRenderer
  | some _ =>
    Renderer.init dom
      { canvas := some initialCanvas,
        flowchart := dom.elems flowchartId,
        connectionType := connectionType,
        lineColor := (dom.cssVar "--primary-color").trim,
        lineWidth := 3,
        arrowSize := 8,
        listenerInstalled := false }

/-- The device-pixel region cleared by clearRect(0, 0, cv.width,
    cv.height) under the context's uniform scale is
    [0, ctxScale·width] × [0, ctxScale·height]; it covers the whole
    backing buffer [0, width] × [0, height] iff both extents reach the
    buffer's. -/
def clearCoversBuffer (cv : CanvasState) : Prop :=
  cv.width ≤ cv.ctxScale * cv.width ∧ cv.height ≤ cv.ctxScale * cv.height

instance (cv : CanvasState) : Decidable (clearCoversBuffer cv) := by
  unfold clearCoversBuffer; infer_instance

/- ----------------------------------------------------------------- -/
/- The resize debounce (lines 49-56)                                  -/
/- ----------------------------------------------------------------- -/

/-- One resize event at time t against the single pending-timer slot
    (the closed-over resizeTimeout variable): a pending timer whose fire
    time has already passed has fired; in every case clearTimeout +
    setTimeout replaces the slot with a timer for t + delay.  The state
    being an Option mirrors that at most one timer is ever pending. -/
def debounceStep (delay : ℚ) (pending : Option ℚ) (t : ℚ) :
    List ℚ × Option ℚ :=
  match pending with
  | none => ([], some (t + delay))
  | some f => if f ≤ t then ([f], some (t + delay)) else ([], some (t + delay))

/-- Run the debounce machine over an ascending list of resize-event
    times, then let any remaining pending timer fire; returns the times
    at which the debounced callback (resizeCanvas + drawConnections,
    lines 53-54) executes. -/
def debounceRun (delay : ℚ) (pending : Option ℚ) : List ℚ → List ℚ
  | [] =>
    match pending with
    | none => []
    | some f => [f]
  | t :: ts =>
    let st := debounceStep delay pending t
    st.1 ++ debounceRun delay st.2 ts

deriving instance DecidableEq for Except

/- ----------------------------------------------------------------- -/
/- Concrete fixtures: documents and renderer states used to evaluate  -/
/- the definitions on explicit inputs.                                -/
/- ----------------------------------------------------------------- -/

/-- A document with no elements, an empty style table and ratio 1. -/
def domEmpty : Dom := ⟨fun _ => none, fun _ => "", some 1⟩

def rect100 : Rect := ⟨0, 0, 100, 100⟩

/-- A document in which only the id "canvas" resolves. -/
def domCanvasOnly : Dom :=
  ⟨fun s => if s = "canvas" then some rect100 else none, fun _ => "", some 1⟩

/-- The element bounding box of the spec's anchor example. -/
def rectAnchorEl : Rect := ⟨100, 50, 40, 20⟩

/-- The container bounding box of the spec's anchor example. -/
def rectAnchorFc : Rect := ⟨80, 30, 500, 400⟩

/-- A document in which only the id "el" resolves (to the example box). -/
def domAnchor : Dom :=
  ⟨fun s => if s = "el" then some rectAnchorEl else none, fun _ => "", some 1⟩

/-- A healthy renderer bound to the example container. -/
def rAnchor : Renderer :=
  { canvas := some initialCanvas, flowchart := some rectAnchorFc,
    connectionType := "default", lineColor := "", lineWidth := 3,
    arrowSize := 8, listenerInstalled := false }

/-- A container box with fractional CSS dimensions (10.5 × 20.5). -/
def rectFrac : Rect := ⟨0, 0, 21 / 2, 41 / 2⟩

def rFrac : Renderer :=
  { canvas := some initialCanvas, flowchart := some rectFrac,
    connectionType := "default", lineColor := "", lineWidth := 3,
    arrowSize := 8, listenerInstalled := false }

/-- The canvas state resizeCanvas produces from rectFrac at ratio 1. -/
def cvFrac : CanvasState := resizedCanvas rectFrac domEmpty.pixelScale

def rFracAfter : Renderer := { rFrac with canvas := some cvFrac }

/-- A window whose device pixel ratio is 1/2 (zoomed-out display). -/
def domHalf : Dom := ⟨fun _ => none, fun _ => "", some (1 / 2)⟩

def rHalf : Renderer :=
  { canvas := some initialCanvas, flowchart := some rect100,
    connectionType := "default", lineColor := "", lineWidth := 3,
    arrowSize := 8, listenerInstalled := false }

/-- The canvas state resizeCanvas produces from rect100 at ratio 1/2. -/
def cvHalf : CanvasState := resizedCanvas rect100 domHalf.pixelScale

def rHalfAfter : Renderer := { rHalf with canvas := some cvHalf }

/-- A window whose device pixel ratio is 2. -/
def domTwo : Dom := ⟨fun _ => none, fun _ => "", some 2⟩

/-- The canvas state resizeCanvas produces from rectAnchorFc at ratio 2. -/
def cvTwoAnchor : CanvasState := resizedCanvas rectAnchorFc domTwo.pixelScale

def rTwoAfter : Renderer := { rAnchor with canvas := some cvTwoAnchor }

/-- The first entry of the default table. -/
def connQ1 : Conn := ⟨"question1", "q1-yes", "var(--category-gradient-start)"⟩

/-- The remaining five entries of the default table. -/
def restDefault : List Conn := defaultConnections.tail

/- ----------------------------------------------------------------- -/
/- Theorems                                                           -/
/- ----------------------------------------------------------------- -/

/-- Helper: the success case of resizeCanvas, written out. -/
lemma resizeCanvas_ok (dom : Dom) (r : Renderer) (rect : Rect)
    (cv : CanvasState) (h1 : r.flowchart = some rect)
    (h2 : r.canvas = some cv) :
    resizeCanvas dom r =
      .ok { r with canvas := some (resizedCanvas rect dom.pixelScale) } := by
  unfold resizeCanvas
  rw [h1, h2]

/-- C1, counterexample.  The claim asserts that construction fails
    silently whenever the surface (canvas) OR the container (flowchart)
    identifier resolves to no node, and that an inert renderer never
    raises on subsequent calls.  In domCanvasOnly the canvas id "canvas"
    resolves but "flow" does not: construction propagates a TypeError
    (line 63, this.flowchart.getBoundingClientRect() on null).
    Moreover an explicit resizeCanvas() on the inert renderer produced
    by a missing canvas also raises a TypeError rather than no-op. -/
theorem c1_counterexample :
    construct domCanvasOnly "canvas" "flow" "default" =
      .error .typeError ∧
    resizeCanvas domCanvasOnly inertRenderer = .error .typeError := by
  constructor <;> rfl

/-- C1, amended.  Only a missing canvas node makes construction return
    silently: the renderer is then inert in that no resize listener is
    installed and nothing was drawn, though directly invoking
    resizeCanvas or drawConnections on it raises a TypeError rather
    than having no effect.  (A missing container with a present canvas
    instead propagates a TypeError out of construction, per the
    counterexample.) -/
theorem c1_amended (dom : Dom) (canvasId flowchartId ct : String)
    (h : dom.elems canvasId = none) :
    construct dom canvasId flowchartId ct = .ok inertRenderer ∧
    inertRenderer.canvas = none ∧
    inertRenderer.listenerInstalled = false ∧
    resizeCanvas dom inertRenderer = .error .typeError ∧
    drawConnections dom inertRenderer = .error .typeError := by
  refine ⟨?_, rfl, rfl, rfl, rfl⟩
  unfold construct
  rw [h]

/-- C1, witness for the amended theorem at a concrete document. -/
theorem c1_witness :
    domEmpty.elems "canvas" = none ∧
    construct domEmpty "canvas" "flow" "default" = .ok inertRenderer :=
  ⟨rfl, (c1_amended domEmpty "canvas" "flow" "default" rfl).1⟩

/-- C2, counterexample.  The claim asserts the backing buffer becomes
    ceil(w·ratio) × ceil(h·ratio).  For a container of CSS size
    10.5 × 20.5 at ratio 1, the code assigns canvas.width = 10.5
    (line 66 has no ceiling), which differs from ceil(10.5) = 11. -/
theorem c2_counterexample :
    resizeCanvas domEmpty rFrac = .ok rFracAfter ∧
    rFracAfter.canvas = some cvFrac ∧
    cvFrac.width = 21 / 2 ∧
    ¬ cvFrac.width = ((⌈rectFrac.width * domEmpty.pixelScale⌉ : ℤ) : ℚ) := by
  refine ⟨resizeCanvas_ok domEmpty rFrac rectFrac initialCanvas rfl rfl,
          rfl, ?_, ?_⟩
  · show rectFrac.width * domEmpty.pixelScale = 21 / 2
    norm_num [rectFrac, domEmpty, Dom.pixelScale]
  · show ¬ rectFrac.width * domEmpty.pixelScale =
        ((⌈rectFrac.width * domEmpty.pixelScale⌉ : ℤ) : ℚ)
    norm_num [rectFrac, domEmpty, Dom.pixelScale]
    have hc : (⌈(21 / 2 : ℚ)⌉ : ℤ) = 11 := by
      rw [Int.ceil_eq_iff]
      norm_num
    rw [hc]
    norm_num

/-- C2, amended.  resize() assigns the backing-buffer dimensions as the
    raw products width·ratio and height·ratio (no rounding in this
    code; the canvas attribute coercion outside it truncates any
    fractional part rather than rounding up), and sets the CSS display
    size to exactly width × height pixels. -/
theorem c2_amended (dom : Dom) (r : Renderer) (rect : Rect)
    (cv : CanvasState) (h1 : r.flowchart = some rect)
    (h2 : r.canvas = some cv) :
    resizeCanvas dom r =
      .ok { r with canvas := some (resizedCanvas rect dom.pixelScale) } ∧
    (resizedCanvas rect dom.pixelScale).width = rect.width * dom.pixelScale ∧
    (resizedCanvas rect dom.pixelScale).height = rect.height * dom.pixelScale ∧
    (resizedCanvas rect dom.pixelScale).styleWidth = rect.width ∧
    (resizedCanvas rect dom.pixelScale).styleHeight = rect.height :=
  ⟨resizeCanvas_ok dom r rect cv h1 h2, rfl, rfl, rfl, rfl⟩

/-- C2, witness for the amended theorem at a concrete container. -/
theorem c2_witness :
    rFrac.flowchart = some rectFrac ∧
    resizeCanvas domEmpty rFrac =
      .ok { rFrac with canvas := some (resizedCanvas rectFrac domEmpty.pixelScale) } :=
  ⟨rfl, (c2_amended domEmpty rFrac rectFrac initialCanvas rfl rfl).1⟩

/-- C6, counterexample.  The claim says the default variant (and any
    unrecognized selector falling back to it) draws 3 connections; the
    default table at lines 223-235 has 6 entries (three questions with a
    yes and a no edge each), so an unrecognized selector yields a
    6-entry table, not 3. -/
theorem c6_counterexample :
    connectionsFor "unknown" = defaultConnections ∧
    defaultConnections.length = 6 ∧
    ¬ defaultConnections.length = 3 := by
  refine ⟨by decide, by decide, by decide⟩

/-- C6, amended: the variant selector.  "hachzarah" selects exactly its
    12 configured connections, none of which is an entry of the default
    table; every other string (including any unrecognized one) selects
    the default table's 6 (not 3) connections.  drawConnections iterates
    precisely connectionsFor this.connectionType, so the selected table
    is what gets drawn. -/
theorem c6_variant_selection :
    connectionsFor "hachzarah" = hachzarahConnections ∧
    hachzarahConnections.length = 12 ∧
    defaultConnections.length = 6 ∧
    (∀ c ∈ defaultConnections, c ∉ hachzarahConnections) ∧
    (∀ ct : String, ct ≠ "hachzarah" →
      connectionsFor ct = defaultConnections) := by
  refine ⟨by decide, by decide, by decide, by decide, ?_⟩
  intro ct h
  unfold connectionsFor
  rw [if_neg h]

/-- C6, witness: an unrecognized variant name falls back to default. -/
theorem c6_witness :
    ("flow" : String) ≠ "hachzarah" ∧
    connectionsFor "flow" = defaultConnections :=
  ⟨by decide, c6_variant_selection.2.2.2.2 "flow" (by decide)⟩

/-- C10: a color that starts with "var(" but contains no substring
    matching var\((--name)\) makes resolveColor index a null match
    result, a TypeError; drawArrow with that color (e.g. "var(x)")
    therefore throws instead of returning a degraded color. -/
theorem c10_malformed_var_token_throws :
    (∀ (dom : Dom) (color : String), startsWithVar color = true →
      matchVarName color = none →
      resolveColor dom color = .error .typeError) ∧
    (∀ dom : Dom, resolveColor dom "var(x)" = .error .typeError) ∧
    (∀ (dom : Dom) (r : Renderer) (p q : Point),
      drawArrow dom r p q "var(x)" = .error .typeError) := by
  refine ⟨?_, fun dom => by rfl, fun dom r p q => by rfl⟩
  intro dom color h1 h2
  unfold resolveColor
  rw [if_pos h1, h2]

/-- C10, witness at the concrete malformed token "var(x)". -/
theorem c10_witness :
    startsWithVar "var(x)" = true ∧
    matchVarName "var(x)" = none ∧
    resolveColor domEmpty "var(x)" = .error .typeError :=
  ⟨by rfl, by rfl,
   c10_malformed_var_token_throws.1 domEmpty "var(x)" (by rfl) (by rfl)⟩

/-- C3: anchor correctness.  For every resolvable element the three
    anchor functions return x = elementLeft + elementWidth/2 -
    containerLeft, with y = elementTop + elementHeight/2 - containerTop
    (center), elementBottom - containerTop (bottom-center) and
    elementTop - containerTop (top-center); on the spec's example boxes
    the bottom-center anchor is (40, 40) and the top-center anchor is
    (40, 20); an unresolvable identifier yields the absent result. -/
theorem c3_anchor_correctness :
    (∀ (dom : Dom) (r : Renderer) (elementId : String) (el fc : Rect),
       dom.elems elementId = some el → r.flowchart = some fc →
       getElementCenter dom r elementId =
         .ok (some ⟨el.left + el.width / 2 - fc.left,
                    el.top + el.height / 2 - fc.top⟩) ∧
       getElementBottom dom r elementId =
         .ok (some ⟨el.left + el.width / 2 - fc.left,
                    el.bottom - fc.top⟩) ∧
       getElementTop dom r elementId =
         .ok (some ⟨el.left + el.width / 2 - fc.left,
                    el.top - fc.top⟩)) ∧
    getElementBottom domAnchor rAnchor "el" = .ok (some ⟨40, 40⟩) ∧
    getElementTop domAnchor rAnchor "el" = .ok (some ⟨40, 20⟩) ∧
    (∀ (dom : Dom) (r : Renderer) (elementId : String),
       dom.elems elementId = none →
       getElementCenter dom r elementId = .ok none ∧
       getElementBottom dom r elementId = .ok none ∧
       getElementTop dom r elementId = .ok none) := by
  refine ⟨?_, ?_, ?_, ?_⟩
  · intro dom r eid el fc h1 h2
    refine ⟨?_, ?_, ?_⟩
    · unfold getElementCenter
      rw [h1, h2]
    · unfold getElementBottom
      rw [h1, h2]
    · unfold getElementTop
      rw [h1, h2]
  · unfold getElementBottom
    norm_num [domAnchor, rAnchor, rectAnchorEl, rectAnchorFc, Rect.bottom]
  · unfold getElementTop
    norm_num [domAnchor, rAnchor, rectAnchorEl, rectAnchorFc]
  · intro dom r eid h
    refine ⟨?_, ?_, ?_⟩
    · unfold getElementCenter
      rw [h]
    · unfold getElementBottom
      rw [h]
    · unfold getElementTop
      rw [h]

/-- C3, witness for the universally quantified part at the example. -/
theorem c3_witness :
    domAnchor.elems "el" = some rectAnchorEl ∧
    rAnchor.flowchart = some rectAnchorFc ∧
    getElementCenter domAnchor rAnchor "el" =
      .ok (some ⟨rectAnchorEl.left + rectAnchorEl.width / 2 - rectAnchorFc.left,
                 rectAnchorEl.top + rectAnchorEl.height / 2 - rectAnchorFc.top⟩) := by
  refine ⟨by decide, by rfl, ?_⟩
  exact (c3_anchor_correctness.1 domAnchor rAnchor "el" rectAnchorEl
    rectAnchorFc (by decide) (by rfl)).1

/-- C4: a connection whose from- or to-identifier does not resolve is
    skipped whole — drawConnection resolves both anchors before issuing
    any command, so no partial line is drawn and no error is raised —
    and removing it from the iterated list leaves every other
    connection's drawing unchanged. -/
theorem c4_missing_endpoint_skips (dom : Dom) (r : Renderer) (fc : Rect)
    (l1 l2 : List Conn) (c : Conn) (hfc : r.flowchart = some fc)
    (h : dom.elems c.fromId = none ∨ dom.elems c.toId = none) :
    drawConnection dom r c = .ok [] ∧
    drawConnList dom r (l1 ++ c :: l2) = drawConnList dom r (l1 ++ l2) := by
  have hBot : ∀ eid, ∃ o, getElementBottom dom r eid = .ok o := by
    intro eid
    unfold getElementBottom
    cases hdo : dom.elems eid with
    | none => exact ⟨none, rfl⟩
    | some el =>
      rw [hfc]
      exact ⟨_, rfl⟩
  have hTop : ∀ eid, ∃ o, getElementTop dom r eid = .ok o := by
    intro eid
    unfold getElementTop
    cases hdo : dom.elems eid with
    | none => exact ⟨none, rfl⟩
    | some el =>
      rw [hfc]
      exact ⟨_, rfl⟩
  have hc : drawConnection dom r c = .ok [] := by
    rcases h with h | h
    · have hb : getElementBottom dom r c.fromId = .ok none := by
        unfold getElementBottom
        rw [h]
      rcases hTop c.toId with ⟨o, ht⟩
      unfold drawConnection
      rw [hb, ht]
    · have ht : getElementTop dom r c.toId = .ok none := by
        unfold getElementTop
        rw [h]
      rcases hBot c.fromId with ⟨o, hb⟩
      unfold drawConnection
      rw [hb, ht]
      cases o <;> rfl
  refine ⟨hc, ?_⟩
  induction l1 with
  | nil =>
    show drawConnList dom r (c :: l2) = drawConnList dom r l2
    simp only [drawConnList]
    rw [hc]
    cases hdl : drawConnList dom r l2 <;> simp
  | cons a l1 ih =>
    show drawConnList dom r (a :: (l1 ++ c :: l2)) =
      drawConnList dom r (a :: (l1 ++ l2))
    simp only [drawConnList]
    rw [ih]

/-- C4, witness: in an empty document the first default connection's
    source id does not resolve; dropping it leaves the rest unchanged. -/
theorem c4_witness :
    domEmpty.elems connQ1.fromId = none ∧
    drawConnection domEmpty rAnchor connQ1 = .ok [] ∧
    drawConnList domEmpty rAnchor ([] ++ connQ1 :: restDefault) =
      drawConnList domEmpty rAnchor ([] ++ restDefault) := by
  refine ⟨by rfl, ?_, ?_⟩
  · exact (c4_missing_endpoint_skips domEmpty rAnchor rectAnchorFc []
      restDefault connQ1 (by rfl) (Or.inl (by rfl))).1
  · exact (c4_missing_endpoint_skips domEmpty rAnchor rectAnchorFc []
      restDefault connQ1 (by rfl) (Or.inl (by rfl))).2

/-- C7, counterexample.  The claim's "clears the entire backing buffer
    ... for any device pixel ratio" fails for ratios below 1: at ratio
    1/2 on a 100×100 container, the buffer is 50×50 device pixels but
    clearRect(0, 0, canvas.width, canvas.height) under the scale-1/2
    transform clears only [0, 25] × [0, 25] device pixels. -/
theorem c7_counterexample :
    resizeCanvas domHalf rHalf = .ok rHalfAfter ∧
    rHalfAfter.canvas = some cvHalf ∧
    ¬ clearCoversBuffer cvHalf := by
  refine ⟨resizeCanvas_ok domHalf rHalf rect100 initialCanvas (by rfl) rfl,
          rfl, ?_⟩
  have hp : domHalf.pixelScale = 1 / 2 := by
    norm_num [Dom.pixelScale, domHalf]
  unfold clearCoversBuffer
  simp only [cvHalf, resizedCanvas, rect100, hp]
  norm_num

/-- C7, amended.  drawConnections first issues clearRect over the full
    user-space buffer dimensions and then draws the active table's
    connections in listed order; under the scale transform the cleared
    device region covers the whole backing buffer whenever the device
    pixel ratio is at least 1 (for smaller ratios it covers only part,
    though in this program every redraw immediately follows resizeCanvas,
    whose buffer-dimension assignment has just reset the bitmap, so no
    previously drawn pixel survives either way). -/
theorem c7_amended :
    (∀ (dom : Dom) (r r2 : Renderer) (rect : Rect) (cv : CanvasState),
       r.flowchart = some rect → r.canvas = some cv →
       0 ≤ rect.width → 0 ≤ rect.height → 1 ≤ dom.pixelScale →
       resizeCanvas dom r = .ok r2 →
       ∃ cv2, r2.canvas = some cv2 ∧ clearCoversBuffer cv2) ∧
    (∀ (dom : Dom) (r : Renderer) (cv : CanvasState), r.canvas = some cv →
       drawConnections dom r =
         (drawConnList dom r (connectionsFor r.connectionType)).map
           (fun cs => Cmd.clearRect 0 0 (cv.width : ℝ) (cv.height : ℝ) :: cs)) := by
  constructor
  · intro dom r r2 rect cv h1 h2 hw hh hp hr
    rw [resizeCanvas_ok dom r rect cv h1 h2] at hr
    cases hr
    have h0 : 0 ≤ dom.pixelScale := le_trans zero_le_one hp
    refine ⟨resizedCanvas rect dom.pixelScale, rfl, ?_, ?_⟩
    · show rect.width * dom.pixelScale ≤
        1 * dom.pixelScale * (rect.width * dom.pixelScale)
      nlinarith [mul_nonneg (mul_nonneg hw h0) (sub_nonneg.mpr hp)]
    · show rect.height * dom.pixelScale ≤
        1 * dom.pixelScale * (rect.height * dom.pixelScale)
      nlinarith [mul_nonneg (mul_nonneg hh h0) (sub_nonneg.mpr hp)]
  · intro dom r cv h
    unfold drawConnections
    rw [h]

/-- C7, witness for the amended theorem at ratio 2. -/
theorem c7_witness :
    rAnchor.flowchart = some rectAnchorFc ∧
    (1 : ℚ) ≤ domTwo.pixelScale ∧
    (∃ cv2, rTwoAfter.canvas = some cv2 ∧ clearCoversBuffer cv2) ∧
    drawConnections domTwo rAnchor =
      (drawConnList domTwo rAnchor (connectionsFor rAnchor.connectionType)).map
        (fun cs => Cmd.clearRect 0 0 (initialCanvas.width : ℝ)
          (initialCanvas.height : ℝ) :: cs) := by
  have hp : (1 : ℚ) ≤ domTwo.pixelScale := by
    norm_num [Dom.pixelScale, domTwo]
  have hr : resizeCanvas domTwo rAnchor = .ok rTwoAfter :=
    resizeCanvas_ok domTwo rAnchor rectAnchorFc initialCanvas (by rfl) rfl
  refine ⟨by rfl, hp, ?_, ?_⟩
  · exact c7_amended.1 domTwo rAnchor rTwoAfter rectAnchorFc initialCanvas
      (by rfl) rfl (by norm_num [rectAnchorFc]) (by norm_num [rectAnchorFc])
      hp hr
  · exact c7_amended.2 domTwo rAnchor initialCanvas rfl

/-- C8: resize() is idempotent on the renderer state.  A second call
    with the same document (same container box and device pixel ratio)
    recomputes exactly the same canvas state; in particular the scale
    factor is 1·ratio both times because assigning canvas.width resets
    the context transform.  Since all drawing reads only the document
    and this state, subsequent drawing is unchanged as well. -/
theorem c8_resize_idempotent (dom : Dom) (r r1 : Renderer)
    (h : resizeCanvas dom r = .ok r1) :
    resizeCanvas dom r1 = .ok r1 := by
  unfold resizeCanvas at h
  cases hf : r.flowchart with
  | none =>
    rw [hf] at h
    cases h
  | some rect =>
    cases hcv : r.canvas with
    | none =>
      rw [hf, hcv] at h
      cases h
    | some cv =>
      rw [hf, hcv] at h
      cases h
      exact resizeCanvas_ok dom _ rect (resizedCanvas rect dom.pixelScale)
        rfl rfl

/-- C8, witness at a concrete document and renderer. -/
theorem c8_witness :
    resizeCanvas domTwo rAnchor = .ok rTwoAfter ∧
    resizeCanvas domTwo rTwoAfter = .ok rTwoAfter := by
  have hr : resizeCanvas domTwo rAnchor = .ok rTwoAfter :=
    resizeCanvas_ok domTwo rAnchor rectAnchorFc initialCanvas (by rfl) rfl
  exact ⟨hr, c8_resize_idempotent domTwo rAnchor rTwoAfter hr⟩

/-- Helper for C9: once a timer for t0 + 100 is pending, every further
    event arriving inside the window replaces it, and only the timer
    set by the last event fires. -/
lemma debounceRun_pending (ts : List ℚ) :
    ∀ t0 : ℚ, List.Chain' (fun a b => a ≤ b) (t0 :: ts) →
      (∀ x ∈ ts, x < t0 + 100) →
      debounceRun 100 (some (t0 + 100)) ts = [ts.getLastD t0 + 100] := by
  induction ts with
  | nil =>
    intro t0 _ _
    rfl
  | cons t ts ih =>
    intro t0 hchain hwin
    have h01 : t0 ≤ t := (List.chain'_cons.mp hchain).1
    have hch2 : List.Chain' (fun a b => a ≤ b) (t :: ts) :=
      (List.chain'_cons.mp hchain).2
    have hlt : t < t0 + 100 := hwin t (List.mem_cons_self t ts)
    have hwin2 : ∀ x ∈ ts, x < t + 100 := by
      intro x hx
      have hx1 : x < t0 + 100 := hwin x (List.mem_cons_of_mem t hx)
      linarith
    have hstep : debounceStep 100 (some (t0 + 100)) t = ([], some (t + 100)) := by
      show (if t0 + 100 ≤ t then ([t0 + 100], some (t + 100))
            else ([], some (t + 100))) = ([], some (t + 100))
      rw [if_neg (not_le.mpr hlt)]
    simp only [debounceRun, hstep, List.nil_append, List.getLastD_cons]
    exact ih t hch2 hwin2

/-- C9: debounce collapsing.  For N ≥ 1 resize events at ascending
    times all within 100ms of the first, the debounced handler
    (resizeCanvas + drawConnections, lines 53-54) runs exactly once, at
    lastEvent + 100; and after any event exactly one timer is pending —
    the event's own replacement timer (clearTimeout then setTimeout on
    the single resizeTimeout slot). -/
theorem c9_debounce_collapses :
    (∀ (t : ℚ) (ts : List ℚ),
       List.Chain' (fun a b => a ≤ b) (t :: ts) →
       (∀ x ∈ ts, x < t + 100) →
       debounceRun 100 none (t :: ts) = [ts.getLastD t + 100]) ∧
    (∀ (pending : Option ℚ) (t : ℚ),
       (debounceStep 100 pending t).2 = some (t + 100)) := by
  constructor
  · intro t ts hchain hwin
    have h0 : debounceRun 100 none (t :: ts) =
        debounceRun 100 (some (t + 100)) ts := by
      simp only [debounceRun, debounceStep, List.nil_append]
    rw [h0]
    exact debounceRun_pending ts t hchain hwin
  · intro pending t
    cases pending with
    | none => rfl
    | some f =>
      show (if f ≤ t then ([f], some (t + 100))
            else ([], some (t + 100))).2 = some (t + 100)
      split <;> rfl

/-- C9, witness: three events at 0, 30, 60 ms fire exactly once, at
    160 ms. -/
theorem c9_witness :
    List.Chain' (fun a b => a ≤ b) [(0 : ℚ), 30, 60] ∧
    debounceRun 100 none ((0 : ℚ) :: [30, 60]) =
      [[(30 : ℚ), 60].getLastD 0 + 100] := by
  have hchain : List.Chain' (fun a b => a ≤ b) [(0 : ℚ), 30, 60] := by
    refine List.chain'_cons.mpr ⟨by norm_num, ?_⟩
    refine List.chain'_cons.mpr ⟨by norm_num, ?_⟩
    exact List.chain'_singleton 60
  have hwin : ∀ x ∈ [(30 : ℚ), 60], x < 0 + 100 := by
    intro x hx
    rcases List.mem_cons.mp hx with h | h
    · rw [h]
      norm_num
    · rw [List.mem_singleton.mp h]
      norm_num
  exact ⟨hchain, c9_debounce_collapses.1 0 [30, 60] hchain hwin⟩

/-- Helper: cosine through the reversed direction. -/
lemma cos_rev (t d : ℝ) :
    Real.cos (t + Real.pi + d) = -Real.cos (t + d) := by
  have h : t + Real.pi + d = (t + d) + Real.pi := by ring
  rw [h, Real.cos_add_pi]

/-- Helper: sine through the reversed direction. -/
lemma sin_rev (t d : ℝ) :
    Real.sin (t + Real.pi + d) = -Real.sin (t + d) := by
  have h : t + Real.pi + d = (t + d) + Real.pi := by ring
  rw [h, Real.sin_add_pi]

/-- Helper: atan2 of a positive x-axis direction is 0. -/
lemma atan2_zero_pos (x : ℝ) (hx : 0 ≤ x) : atan2 0 x = 0 := by
  unfold atan2
  exact Complex.arg_ofReal_of_nonneg hx

/-- C5: arrowhead geometry.  Whenever the color resolves, drawArrow
    emits exactly one stroked segment from source to destination and
    one filled triangle whose first (apex) vertex is the destination —
    never the source — and whose two trailing vertices are offset from
    the destination by arrowSize at angles ∓30° from the reversed line
    direction (specTrailingVertex states the spec's wording; the proof
    shows the code's dest − size·e(θ ∓ π/6) equals it); concretely, for
    a horizontal arrow (0,0)→(100,0) with arrowSize 8 the trailing
    vertices are (100 − 8·cos 30°, ±8·sin 30°). -/
theorem c5_arrowhead_geometry :
    (∀ (dom : Dom) (r : Renderer) (p q : Point) (color c : String),
       resolveColor dom color = .ok c →
       drawArrow dom r p q color = .ok
         [ Cmd.strokeLine c (r.lineWidth : ℝ) (p.x : ℝ) (p.y : ℝ)
             (q.x : ℝ) (q.y : ℝ),
           Cmd.fillTriangle c (q.x : ℝ) (q.y : ℝ)
             (specTrailingVertex q (r.arrowSize : ℝ)
               (atan2 ((q.y : ℝ) - (p.y : ℝ)) ((q.x : ℝ) - (p.x : ℝ)))
               (-(Real.pi / 6))).1
             (specTrailingVertex q (r.arrowSize : ℝ)
               (atan2 ((q.y : ℝ) - (p.y : ℝ)) ((q.x : ℝ) - (p.x : ℝ)))
               (-(Real.pi / 6))).2
             (specTrailingVertex q (r.arrowSize : ℝ)
               (atan2 ((q.y : ℝ) - (p.y : ℝ)) ((q.x : ℝ) - (p.x : ℝ)))
               (Real.pi / 6)).1
             (specTrailingVertex q (r.arrowSize : ℝ)
               (atan2 ((q.y : ℝ) - (p.y : ℝ)) ((q.x : ℝ) - (p.x : ℝ)))
               (Real.pi / 6)).2 ]) ∧
    drawArrow domEmpty rAnchor ⟨0, 0⟩ ⟨100, 0⟩ "#ed8936" = .ok
      [ Cmd.strokeLine "#ed8936" (rAnchor.lineWidth : ℝ) 0 0 100 0,
        Cmd.fillTriangle "#ed8936" 100 0
          (100 - 8 * Real.cos (Real.pi / 6)) (8 * Real.sin (Real.pi / 6))
          (100 - 8 * Real.cos (Real.pi / 6))
          (-(8 * Real.sin (Real.pi / 6))) ] := by
  constructor
  · intro dom r p q color c hc
    unfold drawArrow
    rw [hc]
    unfold specTrailingVertex
    simp only [Except.ok.injEq, List.cons.injEq, Cmd.strokeLine.injEq,
      Cmd.fillTriangle.injEq, and_true, true_and]
    refine ⟨?_, ?_, ?_, ?_⟩
    · rw [cos_rev, ← sub_eq_add_neg]
      ring
    · rw [sin_rev, ← sub_eq_add_neg]
      ring
    · rw [cos_rev]
      ring
    · rw [sin_rev]
      ring
  · have hr : resolveColor domEmpty "#ed8936" = .ok "#ed8936" := by rfl
    have hzero : ((0 : ℚ) : ℝ) = 0 := by norm_num
    have hhundred : ((100 : ℚ) : ℝ) = 100 := by norm_num
    unfold drawArrow
    rw [hr]
    dsimp only
    rw [hzero, hhundred]
    have hθ : atan2 (0 - 0) (100 - 0) = 0 := by
      rw [sub_zero, sub_zero]
      exact atan2_zero_pos 100 (by norm_num)
    rw [hθ]
    simp only [zero_sub, zero_add, Real.cos_neg, Real.sin_neg, neg_neg]
    simp only [Except.ok.injEq, List.cons.injEq, Cmd.strokeLine.injEq,
      Cmd.fillTriangle.injEq, and_true, true_and]
    refine ⟨?_, ?_, ?_, ?_⟩ <;> norm_num [rAnchor]

/-- C5, witness: the general arrowhead theorem applied to the concrete
    arrow (0,0)→(3,4) with a literal color. -/
theorem c5_witness :
    resolveColor domEmpty "#fff" = .ok "#fff" ∧
    drawArrow domEmpty rAnchor ⟨0, 0⟩ ⟨3, 4⟩ "#fff" = .ok
      [ Cmd.strokeLine "#fff" (rAnchor.lineWidth : ℝ) ((0 : ℚ) : ℝ)
          ((0 : ℚ) : ℝ) ((3 : ℚ) : ℝ) ((4 : ℚ) : ℝ),
        Cmd.fillTriangle "#fff" ((3 : ℚ) : ℝ) ((4 : ℚ) : ℝ)
          (specTrailingVertex ⟨3, 4⟩ (rAnchor.arrowSize : ℝ)
            (atan2 (((4 : ℚ) : ℝ) - ((0 : ℚ) : ℝ))
              (((3 : ℚ) : ℝ) - ((0 : ℚ) : ℝ))) (-(Real.pi / 6))).1
          (specTrailingVertex ⟨3, 4⟩ (rAnchor.arrowSize : ℝ)
            (atan2 (((4 : ℚ) : ℝ) - ((0 : ℚ) : ℝ))
              (((3 : ℚ) : ℝ) - ((0 : ℚ) : ℝ))) (-(Real.pi / 6))).2
          (specTrailingVertex ⟨3, 4⟩ (rAnchor.arrowSize : ℝ)
            (atan2 (((4 : ℚ) : ℝ) - ((0 : ℚ) : ℝ))
              (((3 : ℚ) : ℝ) - ((0 : ℚ) : ℝ))) (Real.pi / 6)).1
          (specTrailingVertex ⟨3, 4⟩ (rAnchor.arrowSize : ℝ)
            (atan2 (((4 : ℚ) : ℝ) - ((0 : ℚ) : ℝ))
              (((3 : ℚ) : ℝ) - ((0 : ℚ) : ℝ))) (Real.pi / 6)).2 ] :=
  ⟨by rfl, c5_arrowhead_geometry.1 domEmpty rAnchor ⟨0, 0⟩ ⟨3, 4⟩
    "#fff" "#fff" (by rfl)⟩
